import Mathlib

/-!
Verification of the authentication core of the `fastapi-crud` repository
(`app/auth.py`, plus the login flow of `app/main.py`), as a shallow
embedding in Lean 4.

Python dictionaries holding JWT claims are modelled as association lists
with first-occurrence lookup and in-place overwrite (`Claims`).  Time is
an integer count of seconds (Python `datetime` / `timedelta` arithmetic
reduced to second counts; `timedelta(minutes=m)` becomes `m * 60`
seconds).  Stateful Python dict mutation is made explicit where a claim
is about mutation (see `create_access_token_state`); everywhere else the
functions are pure, exactly as the source's data flow.
-/

set_option autoImplicit false

namespace FastapiCrud

/-- A primitive JSON value stored in a claims mapping: the source stores
strings (the `sub` claim) and an integer timestamp (the `exp` claim,
which python-jose serialises from `datetime` to an integer epoch). -/
inductive JValue where
  | s (v : String)
  | n (v : Int)
deriving DecidableEq, Repr

/-- A Python dict of claims: association list, unique keys maintained by
`claimsSet`, first-match lookup like `dict.get`. -/
abbrev Claims := List (String × JValue)

/-- `payload.get(k)`: first binding of `k`, or `none`. -/
def claimsGet : Claims → String → Option JValue
  | [], _ => none
  | (k', v') :: rest, k => if k' = k then some v' else claimsGet rest k

/-- `d.update({k: v})` on a dict represented as an association list:
overwrite the first binding of `k` in place, or append a new binding. -/
def claimsSet : Claims → String → JValue → Claims
  | [], k, v => [(k, v)]
  | (k', v') :: rest, k, v =>
      if k' = k then (k, v) :: rest else (k', v') :: claimsSet rest k v

@[simp] theorem claimsGet_claimsSet_same (c : Claims) (k : String) (v : JValue) :
    claimsGet (claimsSet c k v) k = some v := by
  induction c with
  | nil => simp [claimsSet, claimsGet]
  | cons hd tl ih =>
      obtain ⟨k', v'⟩ := hd
      by_cases h : k' = k <;> simp [claimsSet, claimsGet, h, ih]

theorem claimsGet_claimsSet_other (c : Claims) (k k' : String) (v : JValue)
    (h : k' ≠ k) : claimsGet (claimsSet c k v) k' = claimsGet c k' := by
  induction c with
  | nil => simp [claimsSet, claimsGet, Ne.symm h]
  | cons hd tl ih =>
      obtain ⟨k₀, v₀⟩ := hd
      by_cases h₀ : k₀ = k
      · subst h₀
        simp [claimsSet, claimsGet, Ne.symm h]
      · by_cases h₁ : k₀ = k'
        · subst h₁
          simp [claimsSet, claimsGet, h₀]
        · simp [claimsSet, claimsGet, h₀, h₁, ih]

/-! ## Static configuration (`app/auth.py`, lines 15-18) -/

def SECRET_KEY : String := "tu-clave-super-secreta-cambiar-en-produccion-123456789"

def ALGORITHM : String := "HS256"

def ACCESS_TOKEN_EXPIRE_MINUTES : Int := 30

/-- `timedelta(minutes=m)` reduced to seconds. -/
def timedeltaMinutes (m : Int) : Int := m * 60

/-! ## Credential Hasher (`app/auth.py`, lines 30-36)

`verify_password` / `get_password_hash` delegate to passlib's bcrypt,
which is library code outside this repository.  Modelled from the spec:
a salted hash whose output differs across calls (salt randomisation) yet
verifies the original plaintext; the spec's "false with overwhelming
probability" for non-matching plaintexts is idealised to exactly false
(collision-free digest).  The `digest` field stands for the bcrypt
digest of the plaintext; one-wayness is outside the model. -/

structure HashStr where
  salt : Nat
  digest : String
deriving DecidableEq, Repr

/-- `get_password_hash(password)`; the salt drawn by bcrypt at call time
is made an explicit argument. -/
def get_password_hash (password : String) (salt : Nat) : HashStr :=
  ⟨salt, password⟩

/-- `verify_password(plain_password, hashed_password)`: recompute the
digest from the plaintext and compare. -/
def verify_password (plain_password : String) (hashed_password : HashStr) : Bool :=
  plain_password == hashed_password.digest

/-! ## Token Codec (`app/auth.py`, lines 42-60)

`jwt.encode` / `jwt.decode` are python-jose library calls outside this
repository.  Modelled from the spec: a token string is either malformed
(not a JWT at all) or carries a payload, an algorithm identifier and the
key under which its signature verifies (`sigKey`); a tampered or
foreign-signed token is one whose `sigKey` differs from the decoding
key.  `jwt.decode` verifies the algorithm, the signature and the `exp`
claim, raising a `JWTError` on any failure; a past expiry means
`exp < now` (python-jose with zero leeway). -/

inductive TokenStr where
  | malformed (raw : String)
  | signed (payload : Claims) (alg : String) (sigKey : String)
deriving DecidableEq, Repr

inductive JWTError where
  | malformedError
  | algorithmError
  | signatureError
  | expiredError
  | claimsError
deriving DecidableEq, Repr

/-- `jwt.encode(claims, key, algorithm=alg)`. -/
def jwt_encode (claims : Claims) (key : String) (alg : String) : TokenStr :=
  .signed claims alg key

/-- `jwt.decode(token, key, algorithms=algorithms)` evaluated at time
`now`: checks structure, algorithm, signature, then the `exp` claim. -/
def jwt_decode (t : TokenStr) (key : String) (algorithms : List String)
    (now : Int) : Except JWTError Claims :=
  match t with
  | .malformed _ => .error .malformedError
  | .signed payload alg sigKey =>
      if alg ∉ algorithms then .error .algorithmError
      else if sigKey ≠ key then .error .signatureError
      else
        match claimsGet payload "exp" with
        | some (.n e) => if e < now then .error .expiredError else .ok payload
        | some (.s _) => .error .claimsError
        | none => .ok payload

/-- Python truthiness of an `Optional[timedelta]`: `None` and
`timedelta(0)` are falsy, every other timedelta is truthy. -/
def timedeltaTruthy : Option Int → Bool
  | none => false
  | some d => d != 0

/-- `create_access_token(data, expires_delta)` evaluated with
`datetime.utcnow() = now` (`app/auth.py`, lines 42-52): copy the claims,
compute the expiry via the `if expires_delta:` truthiness test, inject
it under `"exp"`, and sign. -/
def create_access_token (data : Claims) (expires_delta : Option Int)
    (now : Int) : TokenStr :=
  let expire : Int :=
    if timedeltaTruthy expires_delta then now + expires_delta.getD 0
    else now + timedeltaMinutes 15
  let to_encode := claimsSet data "exp" (.n expire)
  jwt_encode to_encode SECRET_KEY ALGORITHM

/-- `verify_token(token)` evaluated at time `now` (`app/auth.py`, lines
54-60): decode under the process secret, catching every `JWTError` as
`None`. -/
def verify_token (token : TokenStr) (now : Int) : Option Claims :=
  match jwt_decode token SECRET_KEY [ALGORITHM] now with
  | .ok payload => some payload
  | .error _ => none

/-! ## Account store and Principal Resolver (`app/auth.py`, lines 66-81,
and `app/models.py`, class `User`) -/

structure UserModel where
  id : Nat
  name : String
  email : String
  hashed_password : HashStr
  age : Int
  is_active : Bool
  created_at : Int
  updated_at : Option Int
deriving DecidableEq, Repr

/-- The users table; a query `filter(User.email == email).first()` is a
first-match scan. -/
abbrev Db := List UserModel

/-- `get_user_by_email(db, email)` (`app/auth.py`, lines 75-77). -/
def get_user_by_email (db : Db) (email : String) : Option UserModel :=
  db.find? (fun u => u.email == email)

/-- `get_user_by_id(db, user_id)` (`app/auth.py`, lines 79-81). -/
def get_user_by_id (db : Db) (user_id : Nat) : Option UserModel :=
  db.find? (fun u => u.id == user_id)

/-- `authenticate_user(db, email, password)` (`app/auth.py`, lines
66-73). -/
def authenticate_user (db : Db) (email : String) (password : String) :
    Option UserModel :=
  match get_user_by_email db email with
  | none => none
  | some user =>
      if ¬ verify_password password user.hashed_password then none
      else some user

/-! ## Session Gate (`app/auth.py`, lines 87-125) -/

structure HTTPException where
  status_code : Nat
  detail : String
  headers : List (String × String)
deriving DecidableEq, Repr

/-- The single 401 raised by every failure branch of
`get_current_user`. -/
def credentials_exception : HTTPException :=
  { status_code := 401
    detail := "No se pudieron validar las credenciales"
    headers := [("WWW-Authenticate", "Bearer")] }

/-- `get_current_user(token, db)` evaluated at time `now` (`app/auth.py`,
lines 87-114): verify the token, read the `sub` claim, look the account
up by that value.  A non-string `sub` matches no account's email column,
so the lookup fails just as an unknown email does. -/
def get_current_user (token : TokenStr) (db : Db) (now : Int) :
    Except HTTPException UserModel :=
  match verify_token token now with
  | none => .error credentials_exception
  | some payload =>
      match claimsGet payload "sub" with
      | none => .error credentials_exception
      | some (.s email) =>
          match get_user_by_email db email with
          | none => .error credentials_exception
          | some user => .ok user
      | some (.n _) => .error credentials_exception

/-- The 400 raised for an inactive account. -/
def inactive_exception : HTTPException :=
  { status_code := 400
    detail := "Usuario inactivo"
    headers := [] }

/-- `get_current_active_user(current_user)` (`app/auth.py`, lines
116-125). -/
def get_current_active_user (current_user : UserModel) :
    Except HTTPException UserModel :=
  if ¬ current_user.is_active then .error inactive_exception
  else .ok current_user

/-! ## Login flow (`app/main.py`, lines 84-95) -/

/-- The 401 raised by `login_user` on bad credentials. -/
def login_exception : HTTPException :=
  { status_code := 401
    detail := "Email o password incorrectos"
    headers := [("WWW-Authenticate", "Bearer")] }

/-- `login_user(form_data, db)` evaluated at time `now`: authenticate,
then issue a token for `{"sub": user.email}` with an explicit
`timedelta(minutes=ACCESS_TOKEN_EXPIRE_MINUTES)` lifetime; returns the
`{access_token, token_type}` pair. -/
def login_user (db : Db) (username : String) (password : String)
    (now : Int) : Except HTTPException (TokenStr × String) :=
  match authenticate_user db username password with
  | none => .error login_exception
  | some user =>
      let access_token_expires := timedeltaMinutes ACCESS_TOKEN_EXPIRE_MINUTES
      let access_token :=
        create_access_token [("sub", .s user.email)] (some access_token_expires) now
      .ok (access_token, "bearer")

/-! ## Dict mutation made explicit

Python dicts are heap objects passed by reference.  To state the frame
property of `create_access_token` (the caller's dict is not mutated) the
body is re-embedded over an explicit heap of dict objects: `data.copy()`
allocates a fresh object, `to_encode.update({"exp": expire})` mutates
only that fresh object. -/

/-- A heap of dict objects; a reference is an index. -/
abbrev Heap := List Claims

/-- Dereference; a dangling reference reads as the empty dict (never
exercised by the theorems, which assume a valid reference). -/
def heapGet (h : Heap) (r : Nat) : Claims := h[r]?.getD []

/-- `d.copy()`: allocate a fresh object holding the same bindings,
return the new heap and the fresh reference. -/
def dictCopy (h : Heap) (r : Nat) : Heap × Nat :=
  (h ++ [heapGet h r], h.length)

/-- `d.update({k: v})`: in-place overwrite of the object behind `r`. -/
def dictUpdate (h : Heap) (r : Nat) (k : String) (v : JValue) : Heap :=
  h.set r (claimsSet (heapGet h r) k v)

/-- `create_access_token(data, expires_delta)` with the Python
reference/mutation semantics explicit: `dataRef` is the caller's dict,
the result is the heap after the call together with the issued token
(`app/auth.py`, lines 42-52). -/
def create_access_token_state (h : Heap) (dataRef : Nat)
    (expires_delta : Option Int) (now : Int) : Heap × TokenStr :=
  let copied := dictCopy h dataRef
  let h₁ := copied.1
  let to_encode := copied.2
  let expire : Int :=
    if timedeltaTruthy expires_delta then now + expires_delta.getD 0
    else now + timedeltaMinutes 15
  let h₂ := dictUpdate h₁ to_encode "exp" (.n expire)
  (h₂, jwt_encode (heapGet h₂ to_encode) SECRET_KEY ALGORITHM)

/-- A sample account, used by the concrete witnesses below. -/
def ana : UserModel :=
  { id := 1, name := "Ana", email := "a@x.com",
    hashed_password := get_password_hash "secret1" 7, age := 30,
    is_active := true, created_at := 0, updated_at := none }

/-- A one-account store, used by the concrete witnesses below. -/
def anaDb : Db := [ana]

/-! ## Theorems -/

/-- `verify_token` is `jwt_decode` with every `JWTError` caught. -/
theorem verify_token_eq_toOption (t : TokenStr) (now : Int) :
    verify_token t now = (jwt_decode t SECRET_KEY [ALGORITHM] now).toOption := by
  unfold verify_token Except.toOption
  cases jwt_decode t SECRET_KEY [ALGORITHM] now <;> rfl

/-- C1: `verify_token` never raises: it is a total function into an
option, returning the claims exactly when `jwt_decode` succeeds
(signature, algorithm and expiry verify) and `none` on every failure
mode — malformed structure, unsupported algorithm, signature mismatch,
expired timestamp — all collapsing to the same absent result. -/
theorem verify_token_fails_closed (t : TokenStr) (now : Int) :
    (∀ raw, verify_token (.malformed raw) now = none)
    ∧ (∀ p alg k, alg ≠ ALGORITHM → verify_token (.signed p alg k) now = none)
    ∧ (∀ p alg k, k ≠ SECRET_KEY → verify_token (.signed p alg k) now = none)
    ∧ (∀ p alg k e, claimsGet p "exp" = some (.n e) → e < now →
        verify_token (.signed p alg k) now = none)
    ∧ (∀ e, jwt_decode t SECRET_KEY [ALGORITHM] now = .error e →
        verify_token t now = none)
    ∧ (∀ p, jwt_decode t SECRET_KEY [ALGORITHM] now = .ok p →
        verify_token t now = some p) := by
  refine ⟨fun raw => rfl, ?_, ?_, ?_, ?_, ?_⟩
  · intro p alg k halg
    simp [verify_token, jwt_decode, halg]
  · intro p alg k hk
    by_cases halg : alg = ALGORITHM
    · simp [verify_token, jwt_decode, halg, hk]
    · simp [verify_token, jwt_decode, halg]
  · intro p alg k e hexp hlt
    by_cases halg : alg = ALGORITHM
    · by_cases hk : k = SECRET_KEY
      · simp [verify_token, jwt_decode, halg, hk, hexp, hlt]
      · simp [verify_token, jwt_decode, halg, hk]
    · simp [verify_token, jwt_decode, halg]
  · intro e he
    rw [verify_token_eq_toOption, he]
    rfl
  · intro p hp
    rw [verify_token_eq_toOption, hp]
    rfl

/-- Witness for C1: each failure mode at a concrete token yields `none`,
and a concretely valid token decodes to its payload. -/
theorem verify_token_fails_closed_witness :
    verify_token (.malformed "not-a-jwt") 0 = none
    ∧ verify_token (.signed [] "none" SECRET_KEY) 0 = none
    ∧ verify_token (.signed [] ALGORITHM "other-key") 0 = none
    ∧ verify_token (.signed [("exp", .n 0)] ALGORITHM SECRET_KEY) 5 = none
    ∧ verify_token (.signed [("exp", .n 9)] ALGORITHM SECRET_KEY) 5
        = some [("exp", .n 9)] :=
  ⟨(verify_token_fails_closed (.malformed "not-a-jwt") 0).1 "not-a-jwt",
   (verify_token_fails_closed (.malformed "") 0).2.1 [] "none" SECRET_KEY (by decide),
   (verify_token_fails_closed (.malformed "") 0).2.2.1 [] ALGORITHM "other-key" (by decide),
   (verify_token_fails_closed (.malformed "") 5).2.2.2.1 [("exp", .n 0)] ALGORITHM
     SECRET_KEY 0 (by decide) (by decide),
   (verify_token_fails_closed (.signed [("exp", .n 9)] ALGORITHM SECRET_KEY) 5).2.2.2.2.2
     [("exp", .n 9)] (by rfl)⟩

/-- C3 counterexample: a token issued with `ttl = 0`
(`expires_delta = timedelta(0)`, which is falsy in Python) takes the
default branch and gets a 15-minute expiry, so the very next decode
attempt (one second after issuance) returns the payload, not absent. -/
theorem ttl_zero_counterexample :
    verify_token (create_access_token [("sub", .s "a@x.com")] (some 0) 0) 1
      = some [("sub", .s "a@x.com"), ("exp", .n 900)] := by decide

/-- C3 (amended): because `timedelta(0)` is falsy, `if expires_delta:`
routes `ttl = 0` to the default branch; the token's expiry is
`now + 900` seconds and every decode up to that instant succeeds. -/
theorem ttl_zero_uses_default_expiry (c : Claims) (now now' : Int)
    (h : now' ≤ now + 900) :
    verify_token (create_access_token c (some 0) now) now'
      = some (claimsSet c "exp" (.n (now + 900))) := by
  have hexp : ¬ (now + 900 < now') := not_lt.mpr h
  simp [verify_token, create_access_token, jwt_encode, jwt_decode,
    timedeltaTruthy, timedeltaMinutes, ALGORITHM, claimsGet_claimsSet_same, hexp]

/-- Witness for the amended C3 at a concrete claims mapping and time. -/
theorem ttl_zero_uses_default_expiry_witness :
    verify_token (create_access_token [("sub", .s "a@x.com")] (some 0) 0) 900
      = some [("sub", .s "a@x.com"), ("exp", .n 900)] :=
  ttl_zero_uses_default_expiry [("sub", .s "a@x.com")] 0 900 (by decide)

/-- C5: round-trip.  For `ttl = t > 0`, decoding `encode(c, t)` at any
time strictly before `issuance + t` yields the payload, which carries
exactly `c`'s fields plus the injected `exp = issuance + t`; decoding at
any time strictly after `issuance + t` yields absent. -/
theorem decode_encode_round_trip (c : Claims) (t t0 now : Int) (ht : 0 < t) :
    (now < t0 + t →
      verify_token (create_access_token c (some t) t0) now
        = some (claimsSet c "exp" (.n (t0 + t)))
      ∧ claimsGet (claimsSet c "exp" (.n (t0 + t))) "exp" = some (.n (t0 + t))
      ∧ ∀ k, k ≠ "exp" →
          claimsGet (claimsSet c "exp" (.n (t0 + t))) k = claimsGet c k)
    ∧ (t0 + t < now →
      verify_token (create_access_token c (some t) t0) now = none) := by
  have htne : (t != 0) = true := by
    simp [bne_iff_ne]
    omega
  constructor
  · intro hbefore
    have hexp : ¬ (t0 + t < now) := not_lt.mpr (le_of_lt hbefore)
    refine ⟨?_, claimsGet_claimsSet_same c "exp" _, ?_⟩
    · simp [verify_token, create_access_token, jwt_encode, jwt_decode,
        timedeltaTruthy, htne, ALGORITHM, claimsGet_claimsSet_same, hexp]
    · intro k hk
      exact claimsGet_claimsSet_other c "exp" k _ hk
  · intro hafter
    simp [verify_token, create_access_token, jwt_encode, jwt_decode,
      timedeltaTruthy, htne, ALGORITHM, claimsGet_claimsSet_same, hafter]

/-- Witness for C5 at a concrete claims mapping, `ttl = 10`, issued at
time 0, decoded at times 5 (valid) and 11 (expired). -/
theorem decode_encode_round_trip_witness :
    verify_token (create_access_token [("sub", .s "a@x.com")] (some 10) 0) 5
      = some [("sub", .s "a@x.com"), ("exp", .n 10)]
    ∧ verify_token (create_access_token [("sub", .s "a@x.com")] (some 10) 0) 11
      = none :=
  ⟨((decode_encode_round_trip [("sub", .s "a@x.com")] 10 0 5 (by decide)).1
      (by decide)).1,
   (decode_encode_round_trip [("sub", .s "a@x.com")] 10 0 11 (by decide)).2
     (by decide)⟩

/-- C4 counterexample: with a supplied `ttl = 0` the expiry claim is not
`now + ttl`: at `now = 0` the issued token carries `exp = 900` (the
15-minute default), not `0 + 0 = 0`, because `timedelta(0)` is falsy. -/
theorem create_access_token_expiry_counterexample :
    create_access_token [] (some 0) 0
      = .signed [("exp", .n 900)] ALGORITHM SECRET_KEY
    ∧ (900 : Int) ≠ 0 + 0 := by
  constructor
  · rfl
  · decide

/-- C4 (amended): `create_access_token` sets or overwrites the expiry
claim to `now + ttl` for every supplied non-zero ttl; when ttl is absent
— or zero, since `timedelta(0)` is falsy under `if expires_delta:` —
the expiry is `now + 15` minutes; and the login flow always calls it
with the explicit 30-minute ttl `ACCESS_TOKEN_EXPIRE_MINUTES`, i.e.
1800 seconds. -/
theorem create_access_token_expiry (data : Claims) (d now : Int) :
    (d ≠ 0 →
      create_access_token data (some d) now
        = jwt_encode (claimsSet data "exp" (.n (now + d))) SECRET_KEY ALGORITHM)
    ∧ create_access_token data none now
        = jwt_encode (claimsSet data "exp" (.n (now + 900))) SECRET_KEY ALGORITHM
    ∧ create_access_token data (some 0) now
        = jwt_encode (claimsSet data "exp" (.n (now + 900))) SECRET_KEY ALGORITHM
    ∧ timedeltaMinutes ACCESS_TOKEN_EXPIRE_MINUTES = 1800
    ∧ (∀ db username password u,
        authenticate_user db username password = some u →
        login_user db username password now
          = .ok (create_access_token [("sub", .s u.email)] (some 1800) now,
                 "bearer")) := by
  refine ⟨?_, ?_, ?_, by decide, ?_⟩
  · intro hd
    have htne : (d != 0) = true := by simp [bne_iff_ne, hd]
    simp [create_access_token, timedeltaTruthy, htne]
  · simp [create_access_token, timedeltaTruthy, timedeltaMinutes]
  · simp [create_access_token, timedeltaTruthy, timedeltaMinutes]
  · intro db username password u hauth
    simp [login_user, hauth, timedeltaMinutes, ACCESS_TOKEN_EXPIRE_MINUTES]

/-- Witness for the amended C4: concrete nonzero ttl, absent ttl, zero
ttl, and a concrete successful login issuing a 1800-second token. -/
theorem create_access_token_expiry_witness :
    create_access_token [] (some 60) 100
      = jwt_encode [("exp", .n 160)] SECRET_KEY ALGORITHM
    ∧ create_access_token [] none 100
      = jwt_encode [("exp", .n 1000)] SECRET_KEY ALGORITHM
    ∧ create_access_token [] (some 0) 100
      = jwt_encode [("exp", .n 1000)] SECRET_KEY ALGORITHM
    ∧ login_user anaDb "a@x.com" "secret1" 100
      = .ok (create_access_token [("sub", .s "a@x.com")] (some 1800) 100,
             "bearer") :=
  ⟨(create_access_token_expiry [] 60 100).1 (by decide),
   (create_access_token_expiry [] 60 100).2.1,
   (create_access_token_expiry [] 60 100).2.2.1,
   (create_access_token_expiry [] 60 100).2.2.2.2 anaDb "a@x.com" "secret1" ana
     (by decide)⟩

/-- C2: every failure branch of `get_current_user` — token fails to
decode, claims lack a `sub` field, subject matches no account — raises
the one `credentials_exception` (status 401, `WWW-Authenticate: Bearer`),
so the stages are indistinguishable from outside; and the chain
short-circuits: admission implies every earlier stage succeeded. -/
theorem get_current_user_uniform_rejection (token : TokenStr) (db : Db)
    (now : Int) :
    (∀ e, get_current_user token db now = .error e → e = credentials_exception)
    ∧ credentials_exception.status_code = 401
    ∧ credentials_exception.headers = [("WWW-Authenticate", "Bearer")]
    ∧ (verify_token token now = none →
        get_current_user token db now = .error credentials_exception)
    ∧ (∀ p, verify_token token now = some p → claimsGet p "sub" = none →
        get_current_user token db now = .error credentials_exception)
    ∧ (∀ p em, verify_token token now = some p →
        claimsGet p "sub" = some (.s em) → get_user_by_email db em = none →
        get_current_user token db now = .error credentials_exception)
    ∧ (∀ u, get_current_user token db now = .ok u →
        ∃ p, verify_token token now = some p
          ∧ ∃ em, claimsGet p "sub" = some (.s em)
            ∧ get_user_by_email db em = some u) := by
  refine ⟨?_, rfl, rfl, ?_, ?_, ?_, ?_⟩
  · intro e he
    unfold get_current_user at he
    cases hv : verify_token token now with
    | none => simp [hv] at he; exact he.symm
    | some p =>
        simp [hv] at he
        cases hs : claimsGet p "sub" with
        | none => simp [hs] at he; exact he.symm
        | some v =>
            cases v with
            | s em =>
                simp [hs] at he
                cases hu : get_user_by_email db em with
                | none => simp [hu] at he; exact he.symm
                | some u => simp [hu] at he
            | n _ => simp [hs] at he; exact he.symm
  · intro hv
    simp [get_current_user, hv]
  · intro p hv hs
    simp [get_current_user, hv, hs]
  · intro p em hv hs hu
    simp [get_current_user, hv, hs, hu]
  · intro u hu
    unfold get_current_user at hu
    cases hv : verify_token token now with
    | none => simp [hv] at hu
    | some p =>
        refine ⟨p, rfl, ?_⟩
        simp [hv] at hu
        cases hs : claimsGet p "sub" with
        | none => simp [hs] at hu
        | some v =>
            cases v with
            | s em =>
                refine ⟨em, rfl, ?_⟩
                simp [hs] at hu
                cases hll : get_user_by_email db em with
                | none => simp [hll] at hu
                | some u' => simp [hll] at hu; simp [hu]
            | n _ => simp [hs] at hu

/-- Witness for C2: the three failure stages at concrete inputs all
yield the identical 401 rejection, and a concrete admission exposes the
successful stages. -/
theorem get_current_user_uniform_rejection_witness :
    get_current_user (.malformed "junk") [] 0 = .error credentials_exception
    ∧ get_current_user (.signed [("exp", .n 9)] ALGORITHM SECRET_KEY) [] 5
        = .error credentials_exception
    ∧ get_current_user
        (.signed [("sub", .s "ghost@x.com"), ("exp", .n 9)] ALGORITHM SECRET_KEY)
        [] 5
        = .error credentials_exception
    ∧ (∃ p, verify_token
          (.signed [("sub", .s "a@x.com"), ("exp", .n 9)] ALGORITHM SECRET_KEY) 5
          = some p
        ∧ ∃ em, claimsGet p "sub" = some (.s em)
          ∧ get_user_by_email anaDb em = some ana) :=
  ⟨(get_current_user_uniform_rejection (.malformed "junk") [] 0).2.2.2.1 (by rfl),
   (get_current_user_uniform_rejection (.signed [("exp", .n 9)] ALGORITHM SECRET_KEY)
      [] 5).2.2.2.2.1 [("exp", .n 9)] (by rfl) (by decide),
   (get_current_user_uniform_rejection
      (.signed [("sub", .s "ghost@x.com"), ("exp", .n 9)] ALGORITHM SECRET_KEY)
      [] 5).2.2.2.2.2.1 [("sub", .s "ghost@x.com"), ("exp", .n 9)] "ghost@x.com"
      (by rfl) (by decide) (by decide),
   (get_current_user_uniform_rejection
      (.signed [("sub", .s "a@x.com"), ("exp", .n 9)] ALGORITHM SECRET_KEY)
      anaDb 5).2.2.2.2.2.2 ana (by rfl)⟩

/-- C6: on an admitted account, `get_current_active_user` returns the
account unchanged when `is_active` is true and raises the distinct
`inactive_exception` (status 400, no challenge header) when it is false
— never the generic 401 `credentials_exception`. -/
theorem get_current_active_user_gate (u : UserModel) :
    get_current_active_user u
      = (if u.is_active then .ok u else .error inactive_exception)
    ∧ inactive_exception.status_code = 400
    ∧ inactive_exception ≠ credentials_exception
    ∧ inactive_exception.status_code ≠ credentials_exception.status_code := by
  refine ⟨?_, rfl, by decide, by decide⟩
  unfold get_current_active_user
  cases h : u.is_active <;> simp [h]

/-- C7: two-run indistinguishability of login failure.  An unknown email
returns absent, a known email with a non-verifying password returns
absent, and the two results are the very same value — the caller cannot
tell unknown email from wrong password. -/
theorem authenticate_user_indistinguishable (db : Db)
    (e₁ p₁ e₂ p₂ : String) :
    (get_user_by_email db e₁ = none → authenticate_user db e₁ p₁ = none)
    ∧ (∀ u, get_user_by_email db e₂ = some u →
        verify_password p₂ u.hashed_password = false →
        authenticate_user db e₂ p₂ = none)
    ∧ (get_user_by_email db e₁ = none →
        (∀ u, get_user_by_email db e₂ = some u →
          verify_password p₂ u.hashed_password = false) →
        authenticate_user db e₁ p₁ = authenticate_user db e₂ p₂) := by
  refine ⟨?_, ?_, ?_⟩
  · intro h₁
    simp [authenticate_user, h₁]
  · intro u hu hv
    simp [authenticate_user, hu, hv]
  · intro h₁ h₂
    have l₁ : authenticate_user db e₁ p₁ = none := by
      simp [authenticate_user, h₁]
    have l₂ : authenticate_user db e₂ p₂ = none := by
      cases hu : get_user_by_email db e₂ with
      | none => simp [authenticate_user, hu]
      | some u => simp [authenticate_user, hu, h₂ u hu]
    rw [l₁, l₂]

/-- Witness for C7 on the concrete one-account store: unknown email and
wrong password both come back absent, and the two runs are equal. -/
theorem authenticate_user_indistinguishable_witness :
    authenticate_user anaDb "b@x.com" "whatever" = none
    ∧ authenticate_user anaDb "a@x.com" "wrong" = none
    ∧ authenticate_user anaDb "b@x.com" "whatever"
        = authenticate_user anaDb "a@x.com" "wrong" := by
  have hwrong : ∀ u, get_user_by_email anaDb "a@x.com" = some u →
      verify_password "wrong" u.hashed_password = false := by
    intro u hu
    have h0 : get_user_by_email anaDb "a@x.com" = some ana := by decide
    rw [h0] at hu
    injection hu with hu
    rw [← hu]
    decide
  exact
    ⟨(authenticate_user_indistinguishable anaDb "b@x.com" "whatever" "a@x.com"
        "wrong").1 (by decide),
     (authenticate_user_indistinguishable anaDb "b@x.com" "whatever" "a@x.com"
        "wrong").2.1 ana (by decide) (by decide),
     (authenticate_user_indistinguishable anaDb "b@x.com" "whatever" "a@x.com"
        "wrong").2.2 (by decide) hwrong⟩

/-- C8: hasher round trip.  Hashing then verifying the same plaintext
succeeds for every salt; two salts give two different hash values that
both still verify (salt randomisation); and a different plaintext never
verifies against the hash (idealised collision-free digest). -/
theorem password_hash_round_trip (p p₁ p₂ : String) (s s₁ s₂ : Nat) :
    verify_password p (get_password_hash p s) = true
    ∧ (s₁ ≠ s₂ →
        get_password_hash p s₁ ≠ get_password_hash p s₂
        ∧ verify_password p (get_password_hash p s₁) = true
        ∧ verify_password p (get_password_hash p s₂) = true)
    ∧ (p₁ ≠ p₂ → verify_password p₁ (get_password_hash p₂ s) = false) := by
  refine ⟨?_, ?_, ?_⟩
  · simp [verify_password, get_password_hash]
  · intro hs
    refine ⟨?_, by simp [verify_password, get_password_hash],
            by simp [verify_password, get_password_hash]⟩
    intro h
    exact hs (congrArg HashStr.salt h)
  · intro hp
    simp [verify_password, get_password_hash, hp]

/-- Witness for C8 at concrete plaintexts and salts. -/
theorem password_hash_round_trip_witness :
    verify_password "secret1" (get_password_hash "secret1" 7) = true
    ∧ get_password_hash "secret1" 1 ≠ get_password_hash "secret1" 2
    ∧ verify_password "secret1" (get_password_hash "secret1" 1) = true
    ∧ verify_password "secret1" (get_password_hash "secret1" 2) = true
    ∧ verify_password "hunter2" (get_password_hash "secret1" 7) = false :=
  ⟨(password_hash_round_trip "secret1" "hunter2" "secret1" 7 1 2).1,
   ((password_hash_round_trip "secret1" "hunter2" "secret1" 7 1 2).2.1
      (by decide)).1,
   ((password_hash_round_trip "secret1" "hunter2" "secret1" 7 1 2).2.1
      (by decide)).2.1,
   ((password_hash_round_trip "secret1" "hunter2" "secret1" 7 1 2).2.1
      (by decide)).2.2,
   (password_hash_round_trip "secret1" "hunter2" "secret1" 7 1 2).2.2
     (by decide)⟩

/-- C9: frame property.  `create_access_token` copies the caller's dict
before injecting `"exp"`, so every dict object existing before the call
— in particular the argument — is unchanged in the heap afterwards, and
the issued token agrees with the pure embedding applied to the caller's
(unmodified) claims. -/
theorem create_access_token_no_mutation (h : Heap) (r : Nat)
    (ed : Option Int) (now : Int) :
    (∀ i, i < h.length →
      heapGet (create_access_token_state h r ed now).1 i = heapGet h i)
    ∧ (create_access_token_state h r ed now).2
        = create_access_token (heapGet h r) ed now := by
  have hx : heapGet (h ++ [heapGet h r]) h.length = heapGet h r := by
    simp [heapGet, List.getElem?_concat_length]
  have hy : ∀ y : Claims,
      heapGet ((h ++ [heapGet h r]).set h.length y) h.length = y := by
    intro y
    have : ((h ++ [heapGet h r]).set h.length y)[h.length]? = some y :=
      List.getElem?_set_eq_of_lt y (by simp)
    simp [heapGet, this]
  constructor
  · intro i hi
    simp only [create_access_token_state, dictCopy, dictUpdate, heapGet]
    rw [List.getElem?_set_ne (Nat.ne_of_gt hi), List.getElem?_append, if_pos hi]
  · simp only [create_access_token_state, dictCopy, dictUpdate]
    rw [hx, hy]
    rfl

/-- Witness for C9 on a concrete one-dict heap: the caller's dict is
intact after the call and the issued token matches the pure function. -/
theorem create_access_token_no_mutation_witness :
    heapGet (create_access_token_state [[("sub", .s "a@x.com")]] 0 (some 60) 0).1 0
      = heapGet [[("sub", .s "a@x.com")]] 0
    ∧ (create_access_token_state [[("sub", .s "a@x.com")]] 0 (some 60) 0).2
      = create_access_token (heapGet [[("sub", .s "a@x.com")]] 0) (some 60) 0 :=
  ⟨(create_access_token_no_mutation [[("sub", .s "a@x.com")]] 0 (some 60) 0).1 0
     (by decide),
   (create_access_token_no_mutation [[("sub", .s "a@x.com")]] 0 (some 60) 0).2⟩

/-- C10: whenever `authenticate_user` returns an account, that account
is the store's first record under the given email, its email equals the
given email, and the given password verifies against its stored hash. -/
theorem authenticate_user_postcondition (db : Db) (email password : String)
    (u : UserModel) (h : authenticate_user db email password = some u) :
    get_user_by_email db email = some u
    ∧ u.email = email
    ∧ verify_password password u.hashed_password = true := by
  unfold authenticate_user at h
  cases hf : get_user_by_email db email with
  | none => rw [hf] at h; simp at h
  | some u' =>
      rw [hf] at h
      cases hv : verify_password password u'.hashed_password with
      | false => simp [hv] at h
      | true =>
          simp [hv] at h
          subst h
          have hfind := hf
          unfold get_user_by_email at hfind
          have hp := List.find?_some hfind
          simp only [beq_iff_eq] at hp
          exact ⟨rfl, hp, hv⟩

/-- Witness for C10: the concrete successful login run satisfies the
postcondition. -/
theorem authenticate_user_postcondition_witness :
    get_user_by_email anaDb "a@x.com" = some ana
    ∧ ana.email = "a@x.com"
    ∧ verify_password "secret1" ana.hashed_password = true :=
  authenticate_user_postcondition anaDb "a@x.com" "secret1" ana (by decide)

end FastapiCrud
